import Mathlib

/-!
Verification of the relay/lifecycle engine of the real-flats bot
(src/main.py) and its companion notification API (src/api.py).

The Python program is shallowly embedded: the in-memory dictionaries
REQUESTS and ACTIVE_CHATS become association lists, timestamps become
integers, and every handler becomes a pure function from its inputs
(stores, per-user data, the inbound text, the current time, and a flag
telling whether each external Telegram delivery succeeds) to its outputs
(an outcome describing the messages sent, plus the updated stores).
-/

namespace RealFlats

/-! ## Python string primitives used by the bot -/

/-- The whitespace test backing Python str.strip for the characters that
occur in this program. -/
def isPyWS (c : Char) : Bool := c.isWhitespace

/-- Python str.strip on a character list: drop whitespace from both ends. -/
def stripL (l : List Char) : List Char :=
  ((l.dropWhile isPyWS).reverse.dropWhile isPyWS).reverse

/-- Python str.strip. -/
def pyStrip (s : String) : String := String.mk (stripL s.data)

/-- Python str.upper restricted to the alphabets this program uses
(ASCII letters and the basic Cyrillic range, plus ё). -/
def pyCharUpper (c : Char) : Char :=
  if 'a' ≤ c ∧ c ≤ 'z' then Char.ofNat (c.toNat - 32)
  else if 'а' ≤ c ∧ c ≤ 'я' then Char.ofNat (c.toNat - 32)
  else if c = 'ё' then 'Ё'
  else c

/-- Python str.upper. -/
def pyUpper (s : String) : String := String.mk (s.data.map pyCharUpper)

/-- Python str.startswith. -/
def pyStartsWith (s pre : String) : Bool := pre.data.isPrefixOf s.data

/-- Drop the first n characters of a string (used to model removing a
recognized payload tag; under a startswith guard Python's
replace(tag, empty, 1) removes exactly the leading tag). -/
def pyDropN (s : String) (n : Nat) : String := String.mk (s.data.drop n)

/-- Python str.lstrip("@"): drop leading at-signs. -/
def pyLStripAt (s : String) : String := String.mk (s.data.dropWhile (fun c => decide (c = '@')))

/-- Python s.split(sep, 1) on character lists: the part before the first
separator, and (if a separator occurs) the rest. -/
def splitOnFirst (sep : Char) : List Char → List Char × Option (List Char)
  | [] => ([], none)
  | c :: rest =>
      if c = sep then ([], some rest)
      else
        let p := splitOnFirst sep rest
        (c :: p.1, p.2)

def isDigitCh (c : Char) : Bool := decide ('0' ≤ c) && decide (c ≤ '9')

/-- Decimal value of a digit string, most significant first. -/
def decValL (l : List Char) : Nat := l.foldl (fun acc c => 10 * acc + (c.toNat - 48)) 0

/-- Python int(s) on the strings this program feeds it: optional sign,
then decimal digits; anything else raises ValueError (modelled as none). -/
def pyInt? (s : String) : Option Int :=
  let l := stripL s.data
  match l with
  | [] => none
  | '-' :: rest => if rest ≠ [] ∧ rest.all isDigitCh then some (-(decValL rest : Int)) else none
  | '+' :: rest => if rest ≠ [] ∧ rest.all isDigitCh then some ((decValL rest : Int)) else none
  | _ => if l.all isDigitCh then some ((decValL l : Int)) else none

/-! ## Request identifiers: make_req_id (src/main.py lines 236-240)

Python renders the counter as f-string R followed by the counter
zero-padded to width 3.  The decimal rendering is given by structural
(fuel) recursion so that it computes inside the kernel. -/

def natDecimalAux : Nat → Nat → List Char
  | 0, _ => []
  | _ + 1, 0 => []
  | fuel + 1, n + 1 =>
      natDecimalAux fuel ((n + 1) / 10) ++ [Nat.digitChar ((n + 1) % 10)]

/-- Decimal digits of n, most significant first. -/
def natDecimal (n : Nat) : List Char := if n = 0 then ['0'] else natDecimalAux n n

/-- Zero-pad to width 3, as Python's %03d format. -/
def zfill3 (l : List Char) : List Char := List.replicate (3 - l.length) '0' ++ l

/-- src/main.py make_req_id: the id issued when the counter holds n. -/
def make_req_id (n : Nat) : String := String.mk ('R' :: zfill3 (natDecimal n))

/-! ### make_req_id is injective -/

theorem decValL_append_singleton (l : List Char) (c : Char) :
    decValL (l ++ [c]) = 10 * decValL l + (c.toNat - 48) := by
  unfold decValL
  rw [List.foldl_append]
  rfl

theorem decVal_digitChar (d : Nat) (h : d < 10) : (Nat.digitChar d).toNat - 48 = d := by
  interval_cases d <;> decide

theorem decValL_natDecimalAux (fuel : Nat) :
    ∀ n, n ≤ fuel → decValL (natDecimalAux fuel n) = n := by
  induction fuel with
  | zero => intro n hn; interval_cases n; rfl
  | succ f ih =>
      intro n hn
      match n with
      | 0 => rfl
      | m + 1 =>
          have hdiv : (m + 1) / 10 ≤ f := by omega
          rw [natDecimalAux, decValL_append_singleton, ih ((m + 1) / 10) hdiv,
            decVal_digitChar _ (Nat.mod_lt _ (by norm_num))]
          omega

theorem decValL_natDecimal (n : Nat) : decValL (natDecimal n) = n := by
  unfold natDecimal
  by_cases h : n = 0
  · simp [h]; rfl
  · simp [h]
    exact decValL_natDecimalAux n n le_rfl

theorem decValL_replicate_zero_append (k : Nat) (l : List Char) :
    decValL (List.replicate k '0' ++ l) = l.foldl (fun acc c => 10 * acc + (c.toNat - 48)) (decValL (List.replicate k '0')) := by
  unfold decValL
  rw [List.foldl_append]

theorem decValL_replicate_zero (k : Nat) : decValL (List.replicate k '0') = 0 := by
  induction k with
  | zero => rfl
  | succ m ih =>
      unfold decValL at *
      rw [List.replicate_succ, List.foldl_cons]
      simpa using ih

theorem decValL_zfill3 (l : List Char) : decValL (zfill3 l) = decValL l := by
  unfold zfill3
  rw [decValL_replicate_zero_append, decValL_replicate_zero]
  rfl

theorem make_req_id_inj {m n : Nat} (h : make_req_id m = make_req_id n) : m = n := by
  unfold make_req_id at h
  have hdata : 'R' :: zfill3 (natDecimal m) = 'R' :: zfill3 (natDecimal n) :=
    congrArg String.data h
  have htail : zfill3 (natDecimal m) = zfill3 (natDecimal n) := by
    injection hdata
  calc m = decValL (zfill3 (natDecimal m)) := by rw [decValL_zfill3, decValL_natDecimal]
    _ = decValL (zfill3 (natDecimal n)) := by rw [htail]
    _ = n := by rw [decValL_zfill3, decValL_natDecimal]

/-! ## Configuration constants (src/main.py lines 44-47) -/

def REQUEST_TTL_SECONDS : Int := 48 * 3600
def REMIND_EVERY_SECONDS : Int := 48 * 3600
def CHAT_SESSION_TTL_SECONDS : Int := 60 * 60
def MAINTENANCE_INTERVAL_SECONDS : Int := 120

/-! ## Data model (src/main.py lines 86-132)

Python dictionaries are embedded as association lists whose insert
replaces any previous entry for the same key. -/

/-- src/main.py dataclass Request (lines 92-119). -/
structure Request where
  req_id : String
  author_id : Int
  author_username : String
  created_at : Int
  last_remind_at : Int
  awaiting_remind_answer : Bool := false
  status : String := "active"
  channel_msg_id : Option Nat := none
  districts : List String := []
  district_tags : List String := []
  rooms_min : Nat := 0
  rooms_max : Nat := 0
  room_tags : List String := []
  budget_min : Nat := 0
  budget_max : Nat := 0
  price_tags : List String := []
  bedrooms : Option Nat := none
  pets : String := "Не важно"
  amenities_required : List String := []
  area_m2 : Option Nat := none
  comment : String := ""
  deriving Repr, DecidableEq

/-- src/main.py dataclass ActiveChat (lines 125-129). -/
structure ActiveChat where
  peer_id : Int
  req_id : String
  expires_at : Int
  deriving Repr, DecidableEq

/-- The REQUESTS dictionary: req_id to Request. -/
abbrev ReqStore := List (String × Request)

/-- The ACTIVE_CHATS dictionary: user_id to ActiveChat. -/
abbrev ChatTable := List (Int × ActiveChat)

/-- The per-user context.user_data entries the relay engine reads and
writes: the mode flag and the request an agent is replying to. -/
structure UserData where
  mode : Option String := none
  reply_req_id : Option String := none
  deriving Repr, DecidableEq

/-! ### Dictionary operations (Python dicts as association lists) -/

/-- Python dict lookup d.get(k). -/
def dget {α β : Type} [DecidableEq α] (k : α) : List (α × β) → Option β
  | [] => none
  | (k', v) :: rest => if k = k' then some v else dget k rest

/-- Python dict assignment d[k] = v: replaces any existing entry for k. -/
def dset {α β : Type} [DecidableEq α] (k : α) (v : β) (l : List (α × β)) : List (α × β) :=
  (k, v) :: l.filter (fun p => decide (p.1 ≠ k))

/-- Python d.pop(k, None). -/
def dpop {α β : Type} [DecidableEq α] (k : α) (l : List (α × β)) : List (α × β) :=
  l.filter (fun p => decide (p.1 ≠ k))

/-! ## Session-table helpers (src/main.py lines 218-233) -/

/-- src/main.py set_active_chat (lines 218-219): unconditionally binds
user_id to a fresh ActiveChat expiring at now + CHAT_SESSION_TTL_SECONDS.
It sends no message to anyone. -/
def set_active_chat (t : Int) (chats : ChatTable) (user_id peer_id : Int) (req_id : String) : ChatTable :=
  dset user_id { peer_id := peer_id, req_id := req_id, expires_at := t + CHAT_SESSION_TTL_SECONDS } chats

/-- src/main.py get_active_chat (lines 222-229): returns the caller's
entry if present and unexpired; an expired entry is popped on read. -/
def get_active_chat (t : Int) (chats : ChatTable) (user_id : Int) : Option ActiveChat × ChatTable :=
  match dget user_id chats with
  | none => (none, chats)
  | some ac => if ac.expires_at < t then (none, dpop user_id chats) else (some ac, chats)

/-- src/main.py clear_active_chat (lines 232-233). -/
def clear_active_chat (chats : ChatTable) (user_id : Int) : ChatTable := dpop user_id chats

/-- src/main.py delete_request_everywhere (lines 243-261): deletes the
channel post (best effort), notifies the author (best effort), and pops
the request from REQUESTS.  ACTIVE_CHATS is not touched. -/
def delete_request_everywhere (reqs : ReqStore) (req : Request) : ReqStore :=
  dpop req.req_id reqs

/-! ## Deep-link codec (src/main.py lines 322-354 and 667)

The bot builds exactly one kind of start-payload itself: the channel
post button carries start=reply_ followed by the request id
(line 667).  start_cmd additionally recognizes view_ payloads
(lines 347-353); the symmetric builder for a mode tag followed by the
request id is the codec's encode. -/

inductive Mode where
  | reply
  | view
  deriving Repr, DecidableEq

def modeTag : Mode → String
  | .reply => "reply_"
  | .view => "view_"

/-- The start-payload for a mode and request id, as built at
src/main.py line 667. -/
def encode (m : Mode) (rid : String) : String := modeTag m ++ rid

/-- What start_cmd recovers from a raw payload. -/
inductive StartGrant where
  | replyMode (rid : String)
  | viewMode (rid : String)
  | plain
  deriving Repr, DecidableEq

/-- The payload parsing of start_cmd (src/main.py lines 325-349):
strip the argument, test the two recognized tags, remove the matched tag
(replace(tag, empty, 1) under a startswith guard) and strip the rest.
A payload matching neither tag carries no grant. -/
def decode_start_payload (arg : String) : StartGrant :=
  let payload := pyStrip arg
  if pyStartsWith payload "reply_" then .replyMode (pyStrip (pyDropN payload 6))
  else if pyStartsWith payload "view_" then .viewMode (pyStrip (pyDropN payload 5))
  else .plain

/-- The reply start_cmd sends back; each constructor is one of the
reply_text calls in src/main.py lines 322-362. -/
inductive StartOutcome where
  | inactiveNotice
  | notFoundNotice
  | replyModeEntered (rid : String)
  | viewShown (rid : String)
  | greeting
  deriving Repr, DecidableEq

/-- src/main.py start_cmd (lines 322-362): decode the optional payload,
authorize against the request store, and either enter agent-reply mode,
show the request, warn, or fall through to the greeting. -/
def start_cmd (reqs : ReqStore) (ud : UserData) (arg? : Option String) : StartOutcome × UserData :=
  match arg? with
  | none => (.greeting, ud)
  | some arg =>
      match decode_start_payload arg with
      | .replyMode rid =>
          match dget rid reqs with
          | none => (.inactiveNotice, ud)
          | some req =>
              if req.status ≠ "active" then (.inactiveNotice, ud)
              else (.replyModeEntered rid, { ud with mode := some ("agent_reply"), reply_req_id := some rid })
      | .viewMode rid =>
          match dget rid reqs with
          | none => (.notFoundNotice, ud)
          | some _ => (.viewShown rid, ud)
      | .plain => (.greeting, ud)

/-! ## Private-text handler (src/main.py lines 761-824) -/

/-- The visible effect of handle_private_text; each constructor names
the messages the handler sends for that path. -/
inductive TextOutcome where
  /-- agent typed ГОТОВО: reply-mode flags cleared, confirmation sent. -/
  | doneModeExited
  /-- agent branch: the referenced request is gone or not active. -/
  | inactiveNotice2
  /-- agent branch: offer delivered to the author with a reply control. -/
  | sentToAuthor (author : Int) (rid : String)
  /-- agent branch: the send to the author raised, aborting the handler
  before any session was created. -/
  | handlerError
  /-- relay branch: message forwarded to the session counterpart. -/
  | relayDelivered (peer : Int) (rid : String)
  /-- relay branch: forward failed; sender told to retry later. -/
  | relayFailed
  /-- no mode and no active chat: nothing was sent anywhere. -/
  | nowhere
  deriving Repr, DecidableEq

/-- src/main.py handle_private_text (lines 761-824).  deliverOk tells
whether the one outbound bot.send_message of the taken path succeeds. -/
def handle_private_text (reqs : ReqStore) (chats : ChatTable) (ud : UserData)
    (uid : Int) (rawText : String) (t : Int) (deliverOk : Bool) :
    TextOutcome × ChatTable × UserData :=
  let text := pyStrip rawText
  if ud.mode = some ("agent_reply") then
    if pyUpper text = "ГОТОВО" then
      (.doneModeExited, chats, { ud with mode := none, reply_req_id := none })
    else
      match ud.reply_req_id with
      | none => (.inactiveNotice2, chats, ud)
      | some rid =>
          match dget rid reqs with
          | none => (.inactiveNotice2, chats, ud)
          | some req =>
              if req.status ≠ "active" then (.inactiveNotice2, chats, ud)
              else if deliverOk then
                (.sentToAuthor req.author_id rid,
                 set_active_chat t (set_active_chat t chats req.author_id uid rid) uid req.author_id rid,
                 ud)
              else (.handlerError, chats, ud)
  else
    let r := get_active_chat t chats uid
    match r.1 with
    | some ac =>
        if deliverOk then (.relayDelivered ac.peer_id ac.req_id, r.2, ud)
        else (.relayFailed, r.2, ud)
    | none => (.nowhere, r.2, ud)

/-! ## Callback handler (src/main.py lines 691-755) -/

/-- The visible effect of on_callback. -/
inductive CbOutcome where
  /-- data matched no branch: only the callback was acknowledged. -/
  | answeredOnly
  /-- close/keep/drop on an id no longer in the store. -/
  | alreadyDeleted
  /-- the presser is not the request's author. -/
  | authorOnly
  /-- author close succeeded: post retracted, author notified, store entry popped. -/
  | closedOk (rid : String)
  /-- liveness yes: request kept, prompt interval restarted. -/
  | keptActive (rid : String)
  /-- liveness no: request deleted everywhere. -/
  | droppedOk (rid : String)
  /-- reply_to_agent on a request no longer in the store. -/
  | staleNotice
  /-- author selected the chat with an agent. -/
  | chatChosen (rid : String) (agent : Int)
  /-- malformed callback data raised (ValueError) out of the handler. -/
  | cbError
  deriving Repr, DecidableEq

/-- src/main.py on_callback (lines 691-755). -/
def on_callback (t : Int) (reqs : ReqStore) (chats : ChatTable) (actor : Int) (data : String) :
    CbOutcome × ReqStore × ChatTable :=
  if pyStartsWith data "close|" then
    match (splitOnFirst '|' data.data).2 with
    | none => (.cbError, reqs, chats)
    | some rest =>
        let rid := String.mk (stripL rest)
        match dget rid reqs with
        | none => (.alreadyDeleted, reqs, chats)
        | some req =>
            if actor ≠ req.author_id then (.authorOnly, reqs, chats)
            else (.closedOk rid, delete_request_everywhere reqs req, chats)
  else if pyStartsWith data "keep|" || pyStartsWith data "drop|" then
    let p := splitOnFirst '|' data.data
    match p.2 with
    | none => (.cbError, reqs, chats)
    | some rest =>
        let action := String.mk p.1
        let rid := String.mk rest
        match dget rid reqs with
        | none => (.alreadyDeleted, reqs, chats)
        | some req =>
            if actor ≠ req.author_id then (.authorOnly, reqs, chats)
            else if action = "keep" then
              (.keptActive rid, dset rid { req with last_remind_at := t, awaiting_remind_answer := false } reqs, chats)
            else if action = "drop" then
              (.droppedOk rid, delete_request_everywhere reqs req, chats)
            else (.answeredOnly, reqs, chats)
  else if pyStartsWith data "reply_to_agent|" then
    match (splitOnFirst '|' data.data).2 with
    | none => (.cbError, reqs, chats)
    | some rest1 =>
        let q := splitOnFirst '|' rest1
        match q.2 with
        | none => (.cbError, reqs, chats)
        | some agentStr =>
            let rid := String.mk q.1
            match pyInt? (String.mk agentStr) with
            | none => (.cbError, reqs, chats)
            | some agent_id =>
                match dget rid reqs with
                | none => (.staleNotice, reqs, chats)
                | some req =>
                    if actor ≠ req.author_id then (.authorOnly, reqs, chats)
                    else (.chatChosen rid agent_id, reqs, set_active_chat t chats req.author_id agent_id rid)
  else (.answeredOnly, reqs, chats)

/-! ## Request creation (src/main.py st_comment, lines 616-685) -/

/-- The attribute values the questionnaire has collected when
st_comment finalizes a request. -/
structure WizardData where
  author_id : Int
  author_username : String
  districts : List String := []
  district_tags : List String := []
  rooms_min : Nat := 0
  rooms_max : Nat := 0
  room_tags : List String := []
  budget_min : Nat := 0
  budget_max : Nat := 0
  price_tags : List String := []
  bedrooms : Option Nat := none
  pets : String := "Не важно"
  amenities_required : List String := []
  area_m2 : Option Nat := none
  comment : String := ""
  deriving Repr, DecidableEq

/-- The creation step of st_comment (lines 622-676): allocate the next
id, store the request as active, and post it to the channel.  The store
insert happens before the channel send, so a failed post (postOk false)
leaves the request stored without a channel_msg_id. -/
def create_request (t : Int) (next : Nat) (w : WizardData) (postOk : Bool) (msgId : Nat)
    (reqs : ReqStore) : ReqStore × Nat :=
  let rid := make_req_id next
  let req : Request :=
    { req_id := rid
      author_id := w.author_id
      author_username := w.author_username
      created_at := t
      last_remind_at := t
      channel_msg_id := if postOk then some msgId else none
      districts := w.districts
      district_tags := w.district_tags
      rooms_min := w.rooms_min
      rooms_max := w.rooms_max
      room_tags := w.room_tags
      budget_min := w.budget_min
      budget_max := w.budget_max
      price_tags := w.price_tags
      bedrooms := w.bedrooms
      pets := w.pets
      amenities_required := w.amenities_required
      area_m2 := w.area_m2
      comment := w.comment }
  (dset rid req reqs, next + 1)

/-! ## Maintenance job (src/main.py lines 830-866) -/

/-- The session sweep at the top of maintenance_job (lines 832-835):
pop every entry with expires_at strictly below now.  The second
component lists the users notified about a removal: the code sends
nothing, so it is always empty. -/
def sweep_active_chats (t : Int) (chats : ChatTable) : ChatTable × List Int :=
  (chats.filter (fun p => !(decide (p.2.expires_at < t))), [])

/-- The liveness-prompt step maintenance_job applies to one stored
request (lines 838-866).  Returns the updated request and whether a
prompt was attempted.  The flag is set before the send and reset if the
send raises; last_remind_at is not written here. -/
def liveness_step (t : Int) (deliverOk : Bool) (req : Request) : Request × Bool :=
  if req.status ≠ "active" then (req, false)
  else if t - req.created_at ≥ REQUEST_TTL_SECONDS ∧
          t - req.last_remind_at ≥ REMIND_EVERY_SECONDS ∧
          req.awaiting_remind_answer = false then
    if deliverOk then ({ req with awaiting_remind_answer := true }, true)
    else ({ req with awaiting_remind_answer := false }, true)
  else (req, false)

/-- src/main.py maintenance_job (lines 830-866): sweep expired chats,
then run the liveness step on every stored request.  deliver tells, per
author id, whether the prompt send succeeds. -/
def maintenance_job (t : Int) (deliver : Int → Bool) (reqs : ReqStore) (chats : ChatTable) :
    ReqStore × ChatTable :=
  let chats' := (sweep_active_chats t chats).1
  let reqs' := reqs.map (fun p => (p.1, (liveness_step t (deliver p.2.author_id) p.2).1))
  (reqs', chats')

/-! ## Startup configuration (src/main.py lines 27-37) and the API
service (src/api.py) -/

/-- The environment variables src/main.py reads at import time. -/
structure BotEnv where
  bot_token : String := ""
  bot_username : String := ""
  group_chat_id : String := ""
  deriving Repr, DecidableEq

/-- The import-time configuration block of src/main.py (lines 27-37):
strip the three variables, convert GROUP_CHAT_ID with int() (an invalid
number raises at import, before the checks), and raise RuntimeError on
any missing value.  On success the resolved channel id is returned. -/
def bot_startup (e : BotEnv) : Except String Int :=
  let token := pyStrip e.bot_token
  let username := pyLStripAt (pyStrip e.bot_username)
  let raw := pyStrip e.group_chat_id
  match (if raw = "" then some (0 : Int) else pyInt? raw) with
  | none => .error ("invalid GROUP_CHAT_ID")
  | some target =>
      if token = "" then .error ("BOT_TOKEN is required")
      else if username = "" then .error ("BOT_USERNAME is required")
      else if target = 0 then .error ("GROUP_CHAT_ID (channel id) is required")
      else .ok target

/-- Result of an API endpoint call. -/
inductive ApiResult where
  | ok
  | httpError (code : Nat) (msg : String)
  /-- an uncaught KeyError escaped the handler (surfaced as a 500 by
  the framework). -/
  | envKeyError
  deriving Repr, DecidableEq

/-- src/api.py get_conn as it exists when any handler runs.  The
module defines get_conn twice; the second definition (lines 60-61)
rebinds the module global, and Python resolves the name at call time,
so every handler call reaches this version: it indexes os.environ
directly and raises KeyError when DATABASE_URL is unset.  The first
get_conn (lines 8-12, returning None) is shadowed dead code, and with
it the conn-is-None branch of new_message. -/
def get_conn (database_url : Option String) : Except Unit String :=
  match database_url with
  | none => .error ()
  | some url => .ok url

/-- src/api.py new_message (lines 18-53): reject a falsy to_tg_user_id
with 400, then call get_conn.  Because get_conn has been rebound by
line 60-61 before any request is served, a missing DATABASE_URL raises
KeyError here; the in-source conn-is-None / HTTP 500 branch is
unreachable.  (The route itself is registered on the first app object,
which line 58 discards by reassigning app, so the served app does not
even expose it; its call-time behavior is modeled for the record.) -/
def new_message (database_url : Option String) (to_tg_user_id : Option Int) : ApiResult :=
  if to_tg_user_id = none ∨ to_tg_user_id = some 0 then .httpError 400 ("to_tg_user_id required")
  else
    match get_conn database_url with
    | .error _ => .envKeyError
    | .ok _ => .ok

/-- src/api.py enqueue (lines 67-85): calls the rebound get_conn, so a
missing DATABASE_URL raises KeyError in the middle of handling the
request. -/
def enqueue (database_url : Option String) (chat_id : Int) (text : String) : ApiResult :=
  match get_conn database_url with
  | .error _ => .envKeyError
  | .ok _ => .ok

/-- The routes registered on the app object that is served: line 58
reassigns app, so only the decorators after it (health, enqueue) bind
to the served application; /events/new_message was registered on the
discarded first app. -/
def served_app_routes : List String := ["/health", "/enqueue"]

/-! ## The global state and one engine step

The bot's shared mutable state is REQUESTS, ACTIVE_CHATS and the id
counter NEXT_REQ_NUM.  Step relates a state to any state one handler
invocation can produce from it, over all inputs (sender, text, time,
callback data, delivery successes, per-user data). -/

structure GState where
  reqs : ReqStore
  chats : ChatTable
  next : Nat

def applyCallback (s : GState) (t : Int) (actor : Int) (data : String) : GState :=
  let r := on_callback t s.reqs s.chats actor data
  { reqs := r.2.1, chats := r.2.2, next := s.next }

def applyText (s : GState) (t : Int) (uid : Int) (ud : UserData) (text : String) (ok : Bool) : GState :=
  let r := handle_private_text s.reqs s.chats ud uid text t ok
  { reqs := s.reqs, chats := r.2.1, next := s.next }

def applyCreate (s : GState) (t : Int) (w : WizardData) (postOk : Bool) (msgId : Nat) : GState :=
  let r := create_request t s.next w postOk msgId s.reqs
  { reqs := r.1, chats := s.chats, next := r.2 }

def applyMaintenance (s : GState) (t : Int) (deliver : Int → Bool) : GState :=
  let r := maintenance_job t deliver s.reqs s.chats
  { reqs := r.1, chats := r.2, next := s.next }

/-- One handler invocation.  start_cmd (and the read-only commands
help and my) only touch the caller's user_data, so they leave the
global state unchanged. -/
inductive Step : GState → GState → Prop where
  | callback (s : GState) (t : Int) (actor : Int) (data : String) :
      Step s (applyCallback s t actor data)
  | text (s : GState) (t : Int) (uid : Int) (ud : UserData) (msg : String) (ok : Bool) :
      Step s (applyText s t uid ud msg ok)
  | create (s : GState) (t : Int) (w : WizardData) (postOk : Bool) (msgId : Nat) :
      Step s (applyCreate s t w postOk msgId)
  | maintenance (s : GState) (t : Int) (deliver : Int → Bool) :
      Step s (applyMaintenance s t deliver)
  | readOnly (s : GState) : Step s s

/-- Any finite sequence of handler invocations. -/
def Steps : GState → GState → Prop := Relation.ReflTransGen Step

/-- A request id counts as allocated once the counter has passed it. -/
def allocated (s : GState) (rid : String) : Prop :=
  ∃ k, k < s.next ∧ rid = make_req_id k

/-- The request id currently names an active stored request. -/
def activeIn (reqs : ReqStore) (rid : String) : Prop :=
  ∃ r, dget rid reqs = some r ∧ r.status = "active"

/-- A closed request: its id was allocated, and it is not an active
entry of the store (on close the code purges the entry). -/
def closedIn (s : GState) (rid : String) : Prop :=
  allocated s rid ∧ ¬ activeIn s.reqs rid

/-! ## Lemmas about the dictionary embedding -/

@[simp]
theorem dget_nil {α β : Type} [DecidableEq α] (k : α) : dget k ([] : List (α × β)) = none := rfl

@[simp]
theorem dget_cons {α β : Type} [DecidableEq α] (k k' : α) (v : β) (rest : List (α × β)) :
    dget k ((k', v) :: rest) = if k = k' then some v else dget k rest := rfl

theorem dget_filter_ne {α β : Type} [DecidableEq α] (k k' : α) (l : List (α × β)) (h : k' ≠ k) :
    dget k' (l.filter (fun p => decide (p.1 ≠ k))) = dget k' l := by
  induction l with
  | nil => rfl
  | cons a rest ih =>
      obtain ⟨a1, a2⟩ := a
      rw [List.filter_cons]
      by_cases hk : a1 = k
      · have hcond : ¬ ((decide ((a1, a2).1 ≠ k)) = true) := by simp [hk]
        rw [if_neg hcond, ih, dget_cons, if_neg (by rw [hk]; exact h)]
      · have hcond : (decide ((a1, a2).1 ≠ k)) = true := by simp [hk]
        rw [if_pos hcond, dget_cons, dget_cons]
        by_cases hka : k' = a1
        · rw [if_pos hka, if_pos hka]
        · rw [if_neg hka, if_neg hka, ih]

theorem dget_dset_self {α β : Type} [DecidableEq α] (k : α) (v : β) (l : List (α × β)) :
    dget k (dset k v l) = some v := by
  unfold dset
  rw [dget_cons, if_pos rfl]

theorem dget_dset_ne {α β : Type} [DecidableEq α] (k k' : α) (v : β) (l : List (α × β))
    (h : k' ≠ k) : dget k' (dset k v l) = dget k' l := by
  unfold dset
  rw [dget_cons, if_neg h]
  exact dget_filter_ne k k' l h

theorem dget_dpop_self {α β : Type} [DecidableEq α] (k : α) (l : List (α × β)) :
    dget k (dpop k l) = none := by
  induction l with
  | nil => rfl
  | cons a rest ih =>
      obtain ⟨a1, a2⟩ := a
      unfold dpop at *
      rw [List.filter_cons]
      by_cases hk : a1 = k
      · have hcond : ¬ ((decide ((a1, a2).1 ≠ k)) = true) := by simp [hk]
        rw [if_neg hcond]
        exact ih
      · have hcond : (decide ((a1, a2).1 ≠ k)) = true := by simp [hk]
        rw [if_pos hcond, dget_cons, if_neg (fun he => hk he.symm)]
        exact ih

theorem dget_dpop_ne {α β : Type} [DecidableEq α] (k k' : α) (l : List (α × β)) (h : k' ≠ k) :
    dget k' (dpop k l) = dget k' l :=
  dget_filter_ne k k' l h

theorem dget_map_value {α β γ : Type} [DecidableEq α] (k : α) (g : β → γ) (l : List (α × β)) :
    dget k (l.map (fun p => (p.1, g p.2))) = (dget k l).map g := by
  induction l with
  | nil => rfl
  | cons a rest ih =>
      obtain ⟨a1, a2⟩ := a
      rw [List.map_cons]
      show dget k ((a1, g a2) :: _) = _
      rw [dget_cons, dget_cons]
      by_cases hk : k = a1
      · rw [if_pos hk, if_pos hk]; rfl
      · rw [if_neg hk, if_neg hk, ih]

/-! ## Lemmas about the string primitives -/

theorem dropWhile_eq_self_of_all {p : Char → Bool} {l : List Char}
    (h : ∀ c ∈ l, p c = false) : l.dropWhile p = l := by
  cases l with
  | nil => rfl
  | cons a as => simp [List.dropWhile, h a (by simp)]

theorem stripL_eq_self {l : List Char} (h : ∀ c ∈ l, isPyWS c = false) : stripL l = l := by
  unfold stripL
  rw [dropWhile_eq_self_of_all h, dropWhile_eq_self_of_all (by intro c hc; exact h c (List.mem_reverse.mp hc)),
    List.reverse_reverse]

theorem mem_natDecimalAux_digit {c : Char} :
    ∀ fuel n, c ∈ natDecimalAux fuel n → ∃ d, d < 10 ∧ c = Nat.digitChar d := by
  intro fuel
  induction fuel with
  | zero => intro n h; simp [natDecimalAux] at h
  | succ f ih =>
      intro n h
      match n with
      | 0 => simp [natDecimalAux] at h
      | m + 1 =>
          rw [natDecimalAux] at h
          rcases List.mem_append.mp h with h1 | h2
          · exact ih _ h1
          · exact ⟨(m + 1) % 10, Nat.mod_lt _ (by norm_num), List.mem_singleton.mp h2⟩

theorem digitChar_not_ws {d : Nat} (h : d < 10) : isPyWS (Nat.digitChar d) = false := by
  interval_cases d <;> decide

theorem make_req_id_chars {n : Nat} : ∀ c ∈ (make_req_id n).data, isPyWS c = false := by
  intro c hc
  unfold make_req_id at hc
  show isPyWS c = false
  rcases List.mem_cons.mp hc with hR | hrest
  · rw [hR]; decide
  · unfold zfill3 at hrest
    rcases List.mem_append.mp hrest with hz | hd
    · rw [List.eq_of_mem_replicate hz]; decide
    · unfold natDecimal at hd
      by_cases h0 : n = 0
      · rw [h0] at hd; simp at hd; rw [hd]; decide
      · simp only [h0, ite_false, if_neg] at hd
        obtain ⟨d, hd10, hcd⟩ := mem_natDecimalAux_digit n n hd
        rw [hcd]; exact digitChar_not_ws hd10

theorem isPrefixOf_append_self (l₁ l₂ : List Char) : l₁.isPrefixOf (l₁ ++ l₂) = true := by
  induction l₁ with
  | nil => simp [List.isPrefixOf]
  | cons a as ih => simp [List.isPrefixOf, ih]

theorem data_append (s t : String) : (s ++ t).data = s.data ++ t.data := rfl

theorem pyStrip_eq_self {s : String} (h : ∀ c ∈ s.data, isPyWS c = false) : pyStrip s = s := by
  unfold pyStrip
  rw [stripL_eq_self h]

/-! ## Claim C4: liveness prompting -/

/-- C4, counterexample: the maintenance liveness step prompts an
eligible request and sets the awaiting flag, but it does not set
last_remind_at to now: for a request created at 0 and prompted at
172800, last_remind_at is still 0. -/
theorem c4_counterexample :
    liveness_step 172800 true
        { req_id := "R001", author_id := 1, author_username := "@a",
          created_at := 0, last_remind_at := 0 }
      = ({ req_id := "R001", author_id := 1, author_username := "@a",
           created_at := 0, last_remind_at := 0, awaiting_remind_answer := true }, true)
    ∧ (0 : Int) ≠ 172800 := by
  exact ⟨by decide, by decide⟩

/-- C4 (amended): for an active request, the maintenance job attempts a
liveness prompt exactly when now - created_at is at least
REQUEST_TTL_SECONDS, now - last_remind_at is at least
REMIND_EVERY_SECONDS, and the awaiting flag is clear; a delivered
prompt sets the awaiting flag and a failed delivery resets it, the
status is never changed, and last_remind_at is left unchanged (it is
only reset when the author answers the prompt). -/
theorem c4_liveness_prompt_conditions (t : Int) (ok : Bool) (req : Request)
    (h : req.status = "active") :
    ((liveness_step t ok req).2 = true ↔
      (t - req.created_at ≥ REQUEST_TTL_SECONDS ∧
       t - req.last_remind_at ≥ REMIND_EVERY_SECONDS ∧
       req.awaiting_remind_answer = false))
    ∧ ((liveness_step t ok req).2 = true →
        (liveness_step t ok req).1 = { req with awaiting_remind_answer := ok })
    ∧ ((liveness_step t ok req).2 = false → (liveness_step t ok req).1 = req)
    ∧ (liveness_step t ok req).1.status = "active"
    ∧ (liveness_step t ok req).1.last_remind_at = req.last_remind_at := by
  have hs : ¬ (req.status ≠ "active") := by simp [h]
  unfold liveness_step
  rw [if_neg hs]
  by_cases he : (t - req.created_at ≥ REQUEST_TTL_SECONDS ∧
      t - req.last_remind_at ≥ REMIND_EVERY_SECONDS ∧ req.awaiting_remind_answer = false)
  · rw [if_pos he]
    cases ok <;> simp [he, h]
  · rw [if_neg he]
    simp [he, h]

/-- C4, witness: a failed prompt delivery at time 172800 on an eligible
request leaves it active and not awaiting an answer. -/
theorem c4_witness :
    (liveness_step 172800 false
        { req_id := "R001", author_id := 1, author_username := "@a",
          created_at := 0, last_remind_at := 0 }).1
      = { req_id := "R001", author_id := 1, author_username := "@a",
          created_at := 0, last_remind_at := 0, awaiting_remind_answer := false } :=
  (c4_liveness_prompt_conditions 172800 false
      { req_id := "R001", author_id := 1, author_username := "@a",
        created_at := 0, last_remind_at := 0 } rfl).2.1 (by decide)

/-! ## Claim C5: single-session relay -/

/-- C5, counterexample: a sender with one unexpired session (expiring
at 100) relays a message at time 50; the message is delivered, but the
session's expiry is not extended to now + CHAT_SESSION_TTL_SECONDS: the
table is returned unchanged, still expiring at 100. -/
theorem c5_counterexample :
    handle_private_text []
        [(7, { peer_id := 9, req_id := "R001", expires_at := 100 })]
        { mode := none, reply_req_id := none } 7 "hello" 50 true
      = (.relayDelivered 9 "R001",
         [(7, { peer_id := 9, req_id := "R001", expires_at := 100 })],
         { mode := none, reply_req_id := none })
    ∧ (100 : Int) ≠ 50 + CHAT_SESSION_TTL_SECONDS := by
  exact ⟨by decide, by decide⟩

/-- C5 (amended): a sender with an unexpired active chat and no
agent-reply mode has an inbound message delivered to the chat's
counterpart with no prompt of any kind, and the successful relay leaves
the session table unchanged — in particular the session's expiry is not
refreshed. -/
theorem c5_relay_no_refresh (reqs : ReqStore) (chats : ChatTable) (ud : UserData)
    (uid t : Int) (text : String) (ac : ActiveChat)
    (hmode : ud.mode ≠ some ("agent_reply"))
    (hac : dget uid chats = some ac)
    (hunexp : ¬ (ac.expires_at < t)) :
    handle_private_text reqs chats ud uid text t true
      = (.relayDelivered ac.peer_id ac.req_id, chats, ud) := by
  unfold handle_private_text
  rw [if_neg hmode]
  unfold get_active_chat
  rw [hac]
  simp [hunexp]

/-- C5, witness for the amended theorem at a concrete state. -/
theorem c5_witness :
    handle_private_text []
        [(7, { peer_id := 9, req_id := "R001", expires_at := 100 })]
        { mode := none, reply_req_id := none } 7 "hi there" 50 true
      = (.relayDelivered 9 "R001",
         [(7, { peer_id := 9, req_id := "R001", expires_at := 100 })],
         { mode := none, reply_req_id := none }) :=
  c5_relay_no_refresh [] _ _ 7 50 "hi there"
    { peer_id := 9, req_id := "R001", expires_at := 100 }
    (by decide) (by decide) (by decide)

/-! ## Claim C6: session sweep -/

/-- C6, counterexample: a session whose expires_at equals now is not
removed by the sweep (the code compares with strict less-than), and the
sweep notifies nobody. -/
theorem c6_counterexample :
    sweep_active_chats 100 [(1, { peer_id := 2, req_id := "R001", expires_at := 100 })]
      = ([(1, { peer_id := 2, req_id := "R001", expires_at := 100 })], [])
    ∧ (100 : Int) ≤ 100 := by
  exact ⟨by decide, by decide⟩

/-- C6 (amended): the maintenance sweep at time now removes exactly the
sessions with expires_at strictly below now, and it does so silently:
no expiry notification is sent to either endpoint. -/
theorem c6_sweep_strict_and_silent (t : Int) (chats : ChatTable) :
    (sweep_active_chats t chats).2 = []
    ∧ ∀ uid ac, ((uid, ac) ∈ (sweep_active_chats t chats).1 ↔
        ((uid, ac) ∈ chats ∧ ¬ (ac.expires_at < t))) := by
  refine ⟨rfl, ?_⟩
  intro uid ac
  unfold sweep_active_chats
  simp [List.mem_filter]

/-! ## Claim C3: inactive request rejected in agent-reply mode -/

/-- C3: a sender in agent-reply mode for a request that is missing
from the store or not active has their next (non-ГОТОВО) message
rejected with the request-inactive notice; no session is created and
the session table, the store and the sender's mode flags are all
unchanged. -/
theorem c3_inactive_request_rejected (reqs : ReqStore) (chats : ChatTable) (ud : UserData)
    (uid t : Int) (text : String) (ok : Bool) (rid : String)
    (hmode : ud.mode = some ("agent_reply"))
    (hrid : ud.reply_req_id = some rid)
    (hnotdone : pyUpper (pyStrip text) ≠ "ГОТОВО")
    (hinactive : ∀ r, dget rid reqs = some r → r.status ≠ "active") :
    handle_private_text reqs chats ud uid text t ok = (.inactiveNotice2, chats, ud) := by
  unfold handle_private_text
  rw [if_pos (by rw [hmode]), if_neg hnotdone, hrid]
  cases hreq : dget rid reqs with
  | none => simp [hreq]
  | some req => simp [hreq, hinactive req hreq]

/-- C3, witness: an agent whose reply mode still points at R001 after
it was purged is rejected and the (empty) session table is unchanged. -/
theorem c3_witness :
    handle_private_text [] [] { mode := some ("agent_reply"), reply_req_id := some ("R001") }
        5 "how about this flat" 0 true
      = (.inactiveNotice2, [], { mode := some ("agent_reply"), reply_req_id := some ("R001") }) :=
  c3_inactive_request_rejected [] [] _ 5 0 "how about this flat" true "R001"
    rfl rfl (by decide) (fun r hr => Option.noConfusion hr)

/-! ## Claim C2: author close does not destroy relay sessions -/

/-- C2, counterexample: an author closes R001 while a relay session
scoped to R001 is live; the close succeeds and purges the request, but
the session (req_id R001) is still in the table afterwards. -/
theorem c2_counterexample :
    on_callback 0
        [("R001", { req_id := "R001", author_id := 1, author_username := "@a",
                    created_at := 0, last_remind_at := 0 })]
        [(7, { peer_id := 9, req_id := "R001", expires_at := 100 })]
        1 "close|R001"
      = (.closedOk "R001", [],
         [(7, { peer_id := 9, req_id := "R001", expires_at := 100 })]) := by
  decide

/-- C2 (amended): a successful author-initiated close pops the request
from the store (and retracts the post and notifies the author, both
best-effort), but it does not touch the session table: every relay
session scoped to the closed request survives until its own expiry. -/
theorem c2_close_leaves_sessions (t : Int) (reqs : ReqStore) (chats : ChatTable)
    (actor : Int) (rid : String) (req : Request)
    (hstrip : stripL rid.data = rid.data)
    (hreq : dget rid reqs = some req)
    (hauth : actor = req.author_id) :
    on_callback t reqs chats actor ("close|" ++ rid)
      = (.closedOk rid, dpop req.req_id reqs, chats) := by
  unfold on_callback
  rw [if_pos ?hpre]
  case hpre =>
    unfold pyStartsWith
    rw [data_append]
    exact isPrefixOf_append_self _ _
  rw [data_append]
  have hsplit : splitOnFirst '|' (("close|" : String).data ++ rid.data)
      = ([ 'c', 'l', 'o', 's', 'e' ], some rid.data) := by
    simp [splitOnFirst]
  rw [hsplit]
  simp only [hstrip]
  have hmk : String.mk rid.data = rid := rfl
  rw [hmk, hreq]
  have hne : ¬ (actor ≠ req.author_id) := by rw [hauth]; exact fun hx => hx rfl
  simp [hne, delete_request_everywhere]

/-- C2, witness for the amended theorem at a concrete state. -/
theorem c2_witness :
    on_callback 0
        [("R001", { req_id := "R001", author_id := 1, author_username := "@a",
                    created_at := 0, last_remind_at := 0 })]
        [(7, { peer_id := 9, req_id := "R001", expires_at := 100 }),
         (9, { peer_id := 7, req_id := "R001", expires_at := 100 })]
        1 "close|R001"
      = (.closedOk "R001", [],
         [(7, { peer_id := 9, req_id := "R001", expires_at := 100 }),
          (9, { peer_id := 7, req_id := "R001", expires_at := 100 })]) :=
  c2_close_leaves_sessions 0 _ _ 1 "R001"
    { req_id := "R001", author_id := 1, author_username := "@a",
      created_at := 0, last_remind_at := 0 }
    (by decide) (by decide) rfl

/-! ## Claim C10: one session per user, silent overwrite -/

theorem nodup_keys_filter {α β : Type} (l : List (α × β)) (p : α × β → Bool)
    (h : (l.map Prod.fst).Nodup) : ((l.filter p).map Prod.fst).Nodup :=
  h.sublist (List.Sublist.map _ (List.filter_sublist l))

theorem nodup_keys_dset {α β : Type} [DecidableEq α] (k : α) (v : β) (l : List (α × β))
    (h : (l.map Prod.fst).Nodup) : ((dset k v l).map Prod.fst).Nodup := by
  unfold dset
  rw [List.map_cons, List.nodup_cons]
  refine ⟨?_, nodup_keys_filter _ _ h⟩
  intro hk
  obtain ⟨p, hp, hpk⟩ := List.mem_map.mp hk
  have := (List.mem_filter.mp hp).2
  simp only [decide_eq_true_eq] at this
  exact this hpk

theorem nodup_keys_dpop {α β : Type} [DecidableEq α] (k : α) (l : List (α × β))
    (h : (l.map Prod.fst).Nodup) : ((dpop k l).map Prod.fst).Nodup :=
  nodup_keys_filter _ _ h

theorem nodup_keys_set_active_chat (t : Int) (chats : ChatTable) (u p : Int) (rid : String)
    (h : (chats.map Prod.fst).Nodup) :
    ((set_active_chat t chats u p rid).map Prod.fst).Nodup :=
  nodup_keys_dset _ _ _ h

theorem nodup_keys_get_active_chat (t : Int) (chats : ChatTable) (uid : Int)
    (h : (chats.map Prod.fst).Nodup) :
    (((get_active_chat t chats uid).2).map Prod.fst).Nodup := by
  unfold get_active_chat
  split
  · exact h
  · split
    · exact nodup_keys_dpop _ _ h
    · exact h

theorem nodup_keys_handle_text (reqs : ReqStore) (chats : ChatTable) (ud : UserData)
    (uid : Int) (text : String) (t : Int) (ok : Bool)
    (h : (chats.map Prod.fst).Nodup) :
    (((handle_private_text reqs chats ud uid text t ok).2.1).map Prod.fst).Nodup := by
  simp only [handle_private_text]
  repeat' split
  all_goals
    first
      | exact h
      | exact nodup_keys_set_active_chat _ _ _ _ _ (nodup_keys_set_active_chat _ _ _ _ _ h)
      | exact nodup_keys_get_active_chat _ _ _ h

theorem nodup_keys_on_callback (t : Int) (reqs : ReqStore) (chats : ChatTable)
    (actor : Int) (data : String)
    (h : (chats.map Prod.fst).Nodup) :
    (((on_callback t reqs chats actor data).2.2).map Prod.fst).Nodup := by
  simp only [on_callback]
  repeat' split
  all_goals
    first
      | exact h
      | exact nodup_keys_set_active_chat _ _ _ _ _ h

/-- C10: ACTIVE_CHATS maps each user to a single session.  Setting a
user's active chat installs exactly one entry for that user (replacing
any previous one, with no notification sent to the previous
counterpart: set_active_chat is a pure table write), leaves everyone
else's entry untouched, and every handler invocation preserves the
one-entry-per-user shape of the table. -/
theorem c10_one_session_per_user :
    (∀ (t : Int) (chats : ChatTable) (u p : Int) (rid : String),
      dget u (set_active_chat t chats u p rid)
          = some { peer_id := p, req_id := rid, expires_at := t + CHAT_SESSION_TTL_SECONDS }
        ∧ ((set_active_chat t chats u p rid).filter (fun e => decide (e.1 = u))).length = 1
        ∧ ∀ v, v ≠ u → dget v (set_active_chat t chats u p rid) = dget v chats)
    ∧ (∀ s s' : GState, Step s s' → (s.chats.map Prod.fst).Nodup → (s'.chats.map Prod.fst).Nodup) := by
  constructor
  · intro t chats u p rid
    refine ⟨dget_dset_self _ _ _, ?_, fun v hv => dget_dset_ne _ _ _ _ hv⟩
    unfold set_active_chat dset
    rw [List.filter_cons]
    have hu : (decide (((u : Int), ({ peer_id := p, req_id := rid, expires_at := t + CHAT_SESSION_TTL_SECONDS } : ActiveChat)).1 = u)) = true := by simp
    rw [if_pos hu]
    have hnil : ((chats.filter (fun q => decide (q.1 ≠ u))).filter (fun e => decide (e.1 = u))) = [] := by
      rw [List.filter_eq_nil_iff]
      intro a ha
      have := (List.mem_filter.mp ha).2
      simp only [decide_eq_true_eq] at this ⊢
      exact this
    rw [hnil]
    rfl
  · intro s s' hstep h
    cases hstep with
    | callback t actor data => exact nodup_keys_on_callback t s.reqs s.chats actor data h
    | text t uid ud msg ok => exact nodup_keys_handle_text s.reqs s.chats ud uid msg t ok h
    | create t w postOk msgId => exact h
    | maintenance t deliver => exact nodup_keys_filter _ _ h
    | readOnly => exact h

/-- C10, witness: overwriting user 7's session replaces it, leaves user
3's entry alone, and a handler step keeps the table well-keyed. -/
theorem c10_witness :
    dget 7 (set_active_chat 0 [(7, { peer_id := 5, req_id := "R000", expires_at := 10 })] 7 9 "R001")
        = some { peer_id := 9, req_id := "R001", expires_at := 3600 }
    ∧ dget 3 (set_active_chat 0 [(3, { peer_id := 5, req_id := "R000", expires_at := 10 })] 7 9 "R001")
        = dget 3 [(3, ({ peer_id := 5, req_id := "R000", expires_at := 10 } : ActiveChat))]
    ∧ (((applyCallback { reqs := [], chats := [], next := 1 } 0 1 "x").chats).map Prod.fst).Nodup :=
  ⟨(c10_one_session_per_user.1 0 [(7, { peer_id := 5, req_id := "R000", expires_at := 10 })] 7 9 "R001").1,
   (c10_one_session_per_user.1 0 [(3, { peer_id := 5, req_id := "R000", expires_at := 10 })] 7 9 "R001").2.2 3 (by decide),
   c10_one_session_per_user.2 _ _ (Step.callback { reqs := [], chats := [], next := 1 } 0 1 "x") (by decide)⟩

/-! ## Claim C9: configuration failures -/

/-- C9, counterexample: a missing DATABASE_URL passes startup and only
surfaces while handling a request — the served enqueue route raises an
uncaught KeyError at request time (and so would new_message, were its
route served), contradicting the claim that no configuration absence
surfaces as a runtime failure while handling an event. -/
theorem c9_counterexample :
    enqueue none 5 "hi" = .envKeyError
    ∧ new_message none (some 5) = .envKeyError := by
  exact ⟨by decide, by decide⟩

/-- C9 (amended): the bot-side identifiers (BOT_TOKEN, BOT_USERNAME,
GROUP_CHAT_ID) are checked at import time and a missing value prevents
startup; but the API service's DATABASE_URL is only read while handling
a request, so its absence surfaces as a runtime failure there: the
rebound get_conn raises an uncaught KeyError in enqueue (and would in
new_message, whose route the served app does not even carry because
app is reassigned after it is registered). -/
theorem c9_startup_vs_runtime_config :
    (∀ e : BotEnv, pyStrip e.bot_token = "" → ∃ msg, bot_startup e = .error msg)
    ∧ (∀ e : BotEnv, pyLStripAt (pyStrip e.bot_username) = "" → ∃ msg, bot_startup e = .error msg)
    ∧ (∀ e : BotEnv, pyStrip e.group_chat_id = "" → ∃ msg, bot_startup e = .error msg)
    ∧ (∀ (chat_id : Int) (text : String), enqueue none chat_id text = .envKeyError)
    ∧ (∀ uid : Int, uid ≠ 0 → new_message none (some uid) = .envKeyError)
    ∧ "/events/new_message" ∉ served_app_routes := by
  refine ⟨?_, ?_, ?_, fun chat_id text => rfl, ?_, by decide⟩
  case refine_4 =>
    intro uid huid
    unfold new_message
    rw [if_neg ?hfalsy]
    case hfalsy =>
      rintro (h0 | h0)
      · exact Option.noConfusion h0
      · exact huid (Option.some.inj h0)
    rfl
  · intro e h
    simp only [bot_startup]
    cases hp : (if pyStrip e.group_chat_id = "" then some (0 : Int) else pyInt? (pyStrip e.group_chat_id)) with
    | none => exact ⟨"invalid GROUP_CHAT_ID", rfl⟩
    | some target => exact ⟨"BOT_TOKEN is required", by simp [h]⟩
  · intro e h
    simp only [bot_startup]
    cases hp : (if pyStrip e.group_chat_id = "" then some (0 : Int) else pyInt? (pyStrip e.group_chat_id)) with
    | none => exact ⟨"invalid GROUP_CHAT_ID", rfl⟩
    | some target =>
        by_cases ht : pyStrip e.bot_token = ""
        · exact ⟨"BOT_TOKEN is required", by simp [ht]⟩
        · exact ⟨"BOT_USERNAME is required", by simp [ht, h]⟩
  · intro e h
    simp only [bot_startup]
    rw [if_pos h]
    by_cases ht : pyStrip e.bot_token = ""
    · exact ⟨"BOT_TOKEN is required", by simp [ht]⟩
    · by_cases hu : pyLStripAt (pyStrip e.bot_username) = ""
      · exact ⟨"BOT_USERNAME is required", by simp [ht, hu]⟩
      · exact ⟨"GROUP_CHAT_ID (channel id) is required", by simp [ht, hu]⟩

/-- C9, witness: concrete environments exercising the three startup
checks and the runtime failures of both endpoints. -/
theorem c9_witness :
    (∃ msg, bot_startup { bot_token := "", bot_username := "u", group_chat_id := "5" } = .error msg)
    ∧ (∃ msg, bot_startup { bot_token := "t", bot_username := "@", group_chat_id := "5" } = .error msg)
    ∧ (∃ msg, bot_startup { bot_token := "t", bot_username := "u", group_chat_id := "" } = .error msg)
    ∧ enqueue none 5 "hi" = .envKeyError
    ∧ new_message none (some 5) = .envKeyError :=
  ⟨c9_startup_vs_runtime_config.1 _ (by decide),
   c9_startup_vs_runtime_config.2.1 _ (by decide),
   c9_startup_vs_runtime_config.2.2.1 _ (by decide),
   c9_startup_vs_runtime_config.2.2.2.1 5 "hi",
   c9_startup_vs_runtime_config.2.2.2.2.1 5 (by decide)⟩

/-! ## Claim C1: deep-link codec -/

theorem reply_tag_chars : ∀ c ∈ ("reply_" : String).data, isPyWS c = false := by decide

theorem view_tag_chars : ∀ c ∈ ("view_" : String).data, isPyWS c = false := by decide

theorem encode_chars {m : Mode} {n : Nat} :
    ∀ c ∈ (encode m (make_req_id n)).data, isPyWS c = false := by
  intro c hc
  unfold encode at hc
  rw [data_append] at hc
  rcases List.mem_append.mp hc with h1 | h2
  · cases m with
    | reply => exact reply_tag_chars c h1
    | view => exact view_tag_chars c h1
  · exact make_req_id_chars c h2

theorem decode_encode_reply (n : Nat) :
    decode_start_payload (encode .reply (make_req_id n)) = .replyMode (make_req_id n) := by
  have hstrip : pyStrip (encode .reply (make_req_id n)) = encode .reply (make_req_id n) :=
    pyStrip_eq_self encode_chars
  have hsw : pyStartsWith (encode .reply (make_req_id n)) "reply_" = true := by
    unfold pyStartsWith encode modeTag
    rw [data_append]
    exact isPrefixOf_append_self _ _
  have hdrop : pyDropN (encode .reply (make_req_id n)) 6 = make_req_id n := by
    unfold pyDropN encode modeTag
    rw [data_append]
    have h6 : (6 : Nat) = ("reply_" : String).data.length := rfl
    rw [h6, List.drop_left]
  simp only [decode_start_payload]
  rw [hstrip, hsw]
  simp only [ite_true, if_pos]
  rw [hdrop, pyStrip_eq_self make_req_id_chars]

theorem decode_encode_view (n : Nat) :
    decode_start_payload (encode .view (make_req_id n)) = .viewMode (make_req_id n) := by
  have hstrip : pyStrip (encode .view (make_req_id n)) = encode .view (make_req_id n) :=
    pyStrip_eq_self encode_chars
  have hnr : pyStartsWith (encode .view (make_req_id n)) "reply_" = false := by
    unfold pyStartsWith encode modeTag
    rw [data_append]
    have hv : ("view_" : String).data = ['v', 'i', 'e', 'w', '_'] := rfl
    have hr : ("reply_" : String).data = ['r', 'e', 'p', 'l', 'y', '_'] := rfl
    rw [hv, hr]
    simp [List.isPrefixOf]
  have hsw : pyStartsWith (encode .view (make_req_id n)) "view_" = true := by
    unfold pyStartsWith encode modeTag
    rw [data_append]
    exact isPrefixOf_append_self _ _
  have hdrop : pyDropN (encode .view (make_req_id n)) 5 = make_req_id n := by
    unfold pyDropN encode modeTag
    rw [data_append]
    have h5 : (5 : Nat) = ("view_" : String).data.length := rfl
    rw [h5, List.drop_left]
  simp only [decode_start_payload]
  rw [hstrip, hnr, hsw]
  simp only [Bool.false_eq_true, ite_false, ite_true, if_pos, if_neg]
  rw [hdrop, pyStrip_eq_self make_req_id_chars]

/-- C1, counterexample: a payload that no encoding produces decodes to
no grant, but start_cmd handles it with the plain greeting, not with
any link-expired-or-invalid notice. -/
theorem c1_counterexample :
    decode_start_payload "hello" = .plain
    ∧ start_cmd [] { mode := none, reply_req_id := none } (some ("hello"))
        = (.greeting, { mode := none, reply_req_id := none })
    ∧ (¬ ∃ (m : Mode) (rid : String), encode m rid = "hello")
    ∧ StartOutcome.greeting ≠ .inactiveNotice
    ∧ StartOutcome.greeting ≠ .notFoundNotice := by
  refine ⟨by decide, by decide, ?_, by decide, by decide⟩
  rintro ⟨m, rid, h⟩
  have hd := congrArg String.data h
  unfold encode at hd
  rw [data_append] at hd
  cases m with
  | reply =>
      have hr : (modeTag .reply).data = ['r', 'e', 'p', 'l', 'y', '_'] := rfl
      have hh : ("hello" : String).data = ['h', 'e', 'l', 'l', 'o'] := rfl
      rw [hr, hh] at hd
      simp at hd
  | view =>
      have hv : (modeTag .view).data = ['v', 'i', 'e', 'w', '_'] := rfl
      have hh : ("hello" : String).data = ['h', 'e', 'l', 'l', 'o'] := rfl
      rw [hv, hh] at hd
      simp at hd

/-- C1 (amended): decoding the payload produced by encoding a mode with
a valid request id recovers exactly that mode and request id, and
decoding is total; but a payload matching no recognized tag yields no
grant and is handled by start_cmd as a plain /start greeting (user_data
untouched), while a structurally valid reply payload whose request is
unknown or inactive gets the link-expired/invalid notice. -/
theorem c1_codec_roundtrip :
    (∀ n : Nat, decode_start_payload (encode .reply (make_req_id n)) = .replyMode (make_req_id n))
    ∧ (∀ n : Nat, decode_start_payload (encode .view (make_req_id n)) = .viewMode (make_req_id n))
    ∧ (∀ (reqs : ReqStore) (ud : UserData) (p : String),
        decode_start_payload p = .plain → start_cmd reqs ud (some p) = (.greeting, ud))
    ∧ (∀ (reqs : ReqStore) (ud : UserData) (p rid : String),
        decode_start_payload p = .replyMode rid →
        (∀ r, dget rid reqs = some r → r.status ≠ "active") →
        start_cmd reqs ud (some p) = (.inactiveNotice, ud)) := by
  refine ⟨decode_encode_reply, decode_encode_view, ?_, ?_⟩
  · intro reqs ud p hdec
    simp [start_cmd, hdec]
  · intro reqs ud p rid hdec hin
    simp only [start_cmd, hdec]
    cases hreq : dget rid reqs with
    | none => rfl
    | some req => simp [hin req hreq]

/-- C1, witness: the codec theorem applied at concrete payloads. -/
theorem c1_witness :
    decode_start_payload (encode .reply (make_req_id 1)) = .replyMode (make_req_id 1)
    ∧ start_cmd [] { mode := none, reply_req_id := none } (some ("hi"))
        = (.greeting, { mode := none, reply_req_id := none })
    ∧ start_cmd [] { mode := none, reply_req_id := none } (some ("reply_R001"))
        = (.inactiveNotice, { mode := none, reply_req_id := none }) :=
  ⟨c1_codec_roundtrip.1 1,
   c1_codec_roundtrip.2.2.1 [] _ "hi" (by decide),
   c1_codec_roundtrip.2.2.2 [] _ "reply_R001" "R001" (by decide)
     (fun r hr => Option.noConfusion hr)⟩

/-! ## Claim C8: first delivered offer creates exactly one session -/

/-- The request-scoped unordered sessions represented by the table:
each entry contributes the unordered pair of its two endpoints plus the
request id, and duplicates (the two directions of one channel) are
collapsed. -/
def sessionTriples (chats : ChatTable) : List (Int × Int × String) :=
  (chats.map (fun e => (min e.1 e.2.peer_id, max e.1 e.2.peer_id, e.2.req_id))).dedup

/-- C8: starting with no sessions, when an agent in reply mode for an
active request sends a first message and it is delivered to the author,
the table afterwards holds the two mirrored entries for author and
agent — exactly one unordered relay session binding (author, agent,
request). -/
theorem c8_first_offer_creates_one_session
    (reqs : ReqStore) (ud : UserData) (a g t : Int) (rid text : String) (req : Request)
    (hmode : ud.mode = some ("agent_reply"))
    (hrid : ud.reply_req_id = some rid)
    (hnotdone : pyUpper (pyStrip text) ≠ "ГОТОВО")
    (hreq : dget rid reqs = some req)
    (hactive : req.status = "active")
    (hauthor : req.author_id = a)
    (hne : a ≠ g) :
    handle_private_text reqs [] ud g text t true
      = (.sentToAuthor a rid,
         [(g, { peer_id := a, req_id := rid, expires_at := t + CHAT_SESSION_TTL_SECONDS }),
          (a, { peer_id := g, req_id := rid, expires_at := t + CHAT_SESSION_TTL_SECONDS })], ud)
    ∧ sessionTriples
        [(g, { peer_id := a, req_id := rid, expires_at := t + CHAT_SESSION_TTL_SECONDS }),
         (a, { peer_id := g, req_id := rid, expires_at := t + CHAT_SESSION_TTL_SECONDS })]
      = [(min g a, max g a, rid)] := by
  constructor
  · unfold handle_private_text
    rw [if_pos (by rw [hmode]), if_neg hnotdone, hrid]
    simp only [hreq, hactive, hauthor]
    unfold set_active_chat dset
    simp [hne]
  · unfold sessionTriples
    rw [List.map_cons, List.map_cons, List.map_nil]
    simp only
    rw [min_comm a g, max_comm a g]
    rw [List.dedup_cons_of_mem (by simp)]
    simp

/-- C8, witness: the scenario at concrete identities: author 1 closes
no session beforehand, agent 2 offers on R001, and afterwards the one
session (1, 2, R001) exists. -/
theorem c8_witness :
    handle_private_text
        [("R001", { req_id := "R001", author_id := 1, author_username := "@a",
                    created_at := 0, last_remind_at := 0 })]
        [] { mode := some ("agent_reply"), reply_req_id := some ("R001") }
        2 "Apt on Main St, $900" 0 true
      = (.sentToAuthor 1 "R001",
         [(2, { peer_id := 1, req_id := "R001", expires_at := 3600 }),
          (1, { peer_id := 2, req_id := "R001", expires_at := 3600 })],
         { mode := some ("agent_reply"), reply_req_id := some ("R001") })
    ∧ sessionTriples
        [(2, { peer_id := 1, req_id := "R001", expires_at := 3600 }),
         (1, { peer_id := 2, req_id := "R001", expires_at := 3600 })]
      = [(1, 2, "R001")] := by
  have h := c8_first_offer_creates_one_session
    [("R001", { req_id := "R001", author_id := 1, author_username := "@a",
                created_at := 0, last_remind_at := 0 })]
    { mode := some ("agent_reply"), reply_req_id := some ("R001") }
    1 2 0 "R001" "Apt on Main St, $900"
    { req_id := "R001", author_id := 1, author_username := "@a",
      created_at := 0, last_remind_at := 0 }
    rfl rfl (by decide) (by decide) rfl rfl (by decide)
  exact ⟨h.1, h.2⟩

/-! ## Claim C7: closed requests never return to active -/

theorem liveness_step_status (t : Int) (ok : Bool) (r : Request) :
    ((liveness_step t ok r).1).status = r.status := by
  unfold liveness_step
  repeat' split
  all_goals rfl

theorem step_next_le {s s' : GState} (h : Step s s') : s.next ≤ s'.next := by
  cases h with
  | callback t actor data => exact le_refl _
  | text t uid ud msg ok => exact le_refl _
  | create t w postOk msgId => exact Nat.le_succ _
  | maintenance t deliver => exact le_refl _
  | readOnly => exact le_refl _

theorem notActive_dpop {reqs : ReqStore} {rid : String} (h : ¬ activeIn reqs rid) (k : String) :
    ¬ activeIn (dpop k reqs) rid := by
  rintro ⟨r, hr, hs⟩
  by_cases hk : rid = k
  · rw [hk, dget_dpop_self] at hr
    exact Option.noConfusion hr
  · rw [dget_dpop_ne k rid reqs hk] at hr
    exact h ⟨r, hr, hs⟩

theorem notActive_dset {reqs : ReqStore} {rid k : String} {req req' : Request}
    (h : ¬ activeIn reqs rid) (hget : dget k reqs = some req)
    (hstat : req'.status = req.status) :
    ¬ activeIn (dset k req' reqs) rid := by
  rintro ⟨r, hr, hs⟩
  by_cases hk : rid = k
  · subst hk
    rw [dget_dset_self] at hr
    have hre : r = req' := (Option.some.inj hr).symm
    refine h ⟨req, hget, ?_⟩
    rw [← hstat, ← hre]
    exact hs
  · rw [dget_dset_ne _ _ _ _ hk] at hr
    exact h ⟨r, hr, hs⟩

theorem notActive_on_callback {t : Int} {reqs : ReqStore} {chats : ChatTable}
    {actor : Int} {data : String} {rid : String} (h : ¬ activeIn reqs rid) :
    ¬ activeIn (on_callback t reqs chats actor data).2.1 rid := by
  simp only [on_callback]
  split
  · split
    · exact h
    · split
      · exact h
      · split
        · exact h
        · exact notActive_dpop h _
  · split
    · split
      · exact h
      · split
        · exact h
        next req heq =>
          split
          · exact h
          · split
            · exact notActive_dset h heq rfl
            · split
              · exact notActive_dpop h _
              · exact h
    · split
      · split
        · exact h
        · split
          · exact h
          · split
            · exact h
            · split
              · exact h
              · split
                · exact h
                · exact h
      · exact h

theorem dget_maintenance (t : Int) (deliver : Int → Bool) (reqs : ReqStore)
    (chats : ChatTable) (rid : String) :
    dget rid (maintenance_job t deliver reqs chats).1
      = (dget rid reqs).map (fun q => (liveness_step t (deliver q.author_id) q).1) := by
  simp only [maintenance_job]
  induction reqs with
  | nil => rfl
  | cons a rest ih =>
      obtain ⟨a1, a2⟩ := a
      rw [List.map_cons]
      show dget rid ((a1, (liveness_step t (deliver a2.author_id) a2).1) :: _) = _
      rw [dget_cons, dget_cons]
      by_cases hk : rid = a1
      · rw [if_pos hk, if_pos hk]
        rfl
      · rw [if_neg hk, if_neg hk]
        exact ih

theorem notActive_maintenance {t : Int} {deliver : Int → Bool} {reqs : ReqStore}
    {chats : ChatTable} {rid : String} (h : ¬ activeIn reqs rid) :
    ¬ activeIn (maintenance_job t deliver reqs chats).1 rid := by
  rintro ⟨r, hr, hs⟩
  rw [dget_maintenance] at hr
  cases hq : dget rid reqs with
  | none => rw [hq] at hr; exact Option.noConfusion hr
  | some q =>
      rw [hq] at hr
      have hrq : r = (liveness_step t (deliver q.author_id) q).1 := (Option.some.inj hr).symm
      refine h ⟨q, hq, ?_⟩
      rw [← liveness_step_status t (deliver q.author_id) q, ← hrq]
      exact hs

theorem step_preserves_closedIn {s s' : GState} {rid : String}
    (hstep : Step s s') (hc : closedIn s rid) : closedIn s' rid := by
  obtain ⟨⟨k, hk, hkr⟩, hna⟩ := hc
  refine ⟨⟨k, Nat.lt_of_lt_of_le hk (step_next_le hstep), hkr⟩, ?_⟩
  cases hstep with
  | callback t actor data => exact notActive_on_callback hna
  | text t uid ud msg ok => exact hna
  | create t w postOk msgId =>
      rintro ⟨r, hr, hs⟩
      simp only [applyCreate, create_request] at hr
      have hne : rid ≠ make_req_id s.next := by
        intro he
        rw [hkr] at he
        exact absurd (make_req_id_inj he) (Nat.ne_of_lt hk)
      rw [dget_dset_ne _ _ _ _ hne] at hr
      exact hna ⟨r, hr, hs⟩
  | maintenance t deliver =>
      show ¬ activeIn (maintenance_job t deliver s.reqs s.chats).1 rid
      exact notActive_maintenance hna
  | readOnly => exact hna

/-- C7: request status is monotonic.  Once a request id is closed
(allocated but no longer an active entry of the store — close purges
the entry), no sequence of handler invocations (callbacks including
close and liveness answers, private texts and relays, request creation,
maintenance sweeps) ever makes it name an active request again: the id
counter only grows and freshly created requests always take a fresh
id. -/
theorem c7_status_monotonic (s s' : GState) (rid : String)
    (hsteps : Steps s s') (hc : closedIn s rid) : closedIn s' rid := by
  have h' : Relation.ReflTransGen Step s s' := hsteps
  clear hsteps
  induction h' with
  | refl => exact hc
  | tail _ hstep ih => exact step_preserves_closedIn hstep ih

/-- C7, witness: R001 is closed in a state whose counter has passed it,
and stays closed across a concrete handler step. -/
theorem c7_witness :
    closedIn { reqs := [], chats := [], next := 2 } "R001"
    ∧ closedIn (applyText { reqs := [], chats := [], next := 2 } 0 5
        { mode := none, reply_req_id := none } "hi" true) "R001" := by
  have h0 : closedIn { reqs := [], chats := [], next := 2 } "R001" := by
    refine ⟨⟨1, by decide, by decide⟩, ?_⟩
    rintro ⟨r, hr, _⟩
    exact Option.noConfusion hr
  exact ⟨h0, c7_status_monotonic _ _ _
    (Relation.ReflTransGen.single
      (Step.text { reqs := [], chats := [], next := 2 } 0 5
        { mode := none, reply_req_id := none } "hi" true)) h0⟩

end RealFlats
